import Mathlib

/-!
Verification of the drug-seizure dashboard core (`app.py`).

The script is a straight-line pandas/streamlit program.  We embed its
data pipeline shallowly: a `DataFrame` becomes a list of rows, each row
holding the `Municipio` key, the month columns (an association list from
column name to value) and the annual `Total` column; each derived view
(`df_filtrado`, `ranking`, `df_total_mes`, `df_pizza`, `df_mapa`) is a
Lean function mirroring the corresponding line of the script.
Cell values are modelled as integers.
-/

namespace DrogasPR

/-- A row of a loaded `SeizureTable` (a pandas `DataFrame` row after
`carregar_dados`): the `Municipio` key, the monthly columns in column
order, and the annual `Total` column. -/
structure Row where
  municipio : String
  cells : List (String × Int)
  total : Int
deriving DecidableEq

/-- Column access `row[c]` for a month column `c`.  In the app the
selected months always come from the table's own columns
(`colunas_mensais`), so the default value is never consulted there. -/
def Row.val (r : Row) (c : String) : Int :=
  (r.cells.lookup c).getD 0

/-- A raw line of a CSV file, before `pd.read_csv`'s NA handling:
`none` means the `Municipio` field is absent; `some ""` is an empty
field. -/
structure RawRow where
  municipio : Option String
  cells : List (String × Int)
  total : Int
deriving DecidableEq

/-- The default NA sentinel strings of `pd.read_csv`
(`keep_default_na=True`, the code passes no `na_values`): any field
equal to one of these parses as `NaN`. -/
def default_na_values : List String :=
  ["", "#N/A", "#N/A N/A", "#NA", "-1.#IND", "-1.#QNAN", "-NaN", "-nan",
   "1.#IND", "1.#QNAN", "<NA>", "N/A", "NA", "NULL", "NaN", "None",
   "n/a", "nan", "null"]

/-- NA-conversion of `pd.read_csv` on the `Municipio` cell: an absent
field, an empty field, or one of the default NA sentinel strings is
parsed as `NaN` (here `none`). -/
def read_csv_municipio (c : Option String) : Option String :=
  match c with
  | none => none
  | some s => if default_na_values.contains s then none else some s

/-- Body of the `try` block of `carregar_dados` (app.py lines 29-31):
`pd.read_csv` followed by `df.dropna(subset=["Municipio"])` — rows whose
parsed `Municipio` is `NaN` are dropped, the others keep their key. -/
def carregar_rows (raw : List RawRow) : List Row :=
  raw.filterMap (fun cr =>
    (read_csv_municipio cr.municipio).map
      (fun m => { municipio := m, cells := cr.cells, total := cr.total }))

/-- Exceptions that `pd.read_csv` can raise on a missing or unreadable
file. -/
inductive PyError where
  | fileNotFound
  | parserError
  | permissionError
deriving DecidableEq

/-- The loader `carregar_dados` (app.py lines 27-34).  Its argument
models the outcome of `pd.read_csv(path)`.  The `except` clause catches
only `FileNotFoundError`, returning the empty-DataFrame sentinel
`pd.DataFrame()`; any other exception propagates (`Except.error`). -/
def carregar_dados (res : Except PyError (List RawRow)) : Except PyError (List Row) :=
  match res with
  | .ok raw => .ok (carregar_rows raw)
  | .error .fileNotFound => .ok []
  | .error e => .error e

/-- The dict comprehension `dados` (app.py line 39): one independent
`carregar_dados` call per data file. -/
def dados (readFile : String → Except PyError (List RawRow)) (arquivo : String) :
    Except PyError (List Row) :=
  carregar_dados (readFile arquivo)

/-- Municipality filter (app.py line 72):
`df[df["Municipio"].isin(municipios)]`. -/
def df_filtrado (df : List Row) (municipios : List String) : List Row :=
  df.filter (fun r => municipios.contains r.municipio)

/-- Per-row `TotalSelecionado` (app.py line 73):
`df_filtrado[meses_selecionados].sum(axis=1) if meses_selecionados else 0`
— Python truthiness makes the empty month list take the `else 0` branch. -/
def totalSelecionado (meses : List String) (r : Row) : Int :=
  if meses.isEmpty then 0 else (meses.map (fun m => r.val m)).sum

/-- Row comparator of `sort_values("Total", ascending=False)`: `a` may
come before `b` when `a`'s annual total is at least `b`'s. -/
def rankLE (a b : Row) : Bool :=
  decide (b.total ≤ a.total)

/-- The sort of app.py line 93, `df.sort_values("Total", ascending=False)`:
rows in descending order of the annual `Total`.  The real call uses
pandas' default `kind='quicksort'` (numpy argsort), which is documented
as unstable: the relative order of rows with equal `Total` is
implementation-defined (it varies with the numpy version and CPU).  This
model fixes one deterministic order — ties kept in original row order —
only so that the views are total functions; no theorem below asserts
anything about the order of tied rows. -/
def sort_values_total_desc (df : List Row) : List Row :=
  df.mergeSort rankLE

/-- The ranking view (app.py line 93):
`df.sort_values("Total", ascending=False).head(10)` — note it reads `df`,
the full table, not `df_filtrado`. -/
def ranking (df : List Row) : List Row :=
  (sort_values_total_desc df).take 10

/-- Statewide totals per month (app.py line 111):
`df_total_mes = df[meses_selecionados].sum()` — one scalar per selected
month, summing the column over all rows of the full `df`, with the
result indexed by the selected months in their given order. -/
def df_total_mes (df : List Row) (meses : List String) : List (String × Int) :=
  meses.map (fun m => (m, (df.map (fun r => r.val m)).sum))

/-- Share (pie) view (app.py line 126):
`df_pizza = df_filtrado[df_filtrado["TotalSelecionado"] > 0]`. -/
def df_pizza (df : List Row) (municipios meses : List String) : List Row :=
  (df_filtrado df municipios).filter (fun r => 0 < totalSelecionado meses r)

/-- The map pipeline's recomputed total (app.py line 187):
`df_mapa[meses_selecionados].sum(axis=1)` — unlike line 73 there is no
emptiness guard; pandas row-sums over zero columns give 0 per row. -/
def mapaTotalSelecionado (meses : List String) (r : Row) : Int :=
  (meses.map (fun m => r.val m)).sum

/-- Choropleth dataset (app.py lines 186-191): a copy of `df_filtrado`
with `TotalSelecionado` recomputed (line 187) and zero rows removed
(line 191, `df_mapa = df_mapa[df_mapa["TotalSelecionado"] > 0]`).
Line 188 additionally attaches the join key `Municipio_ascii`, modelled
separately by `municipio_ascii` below. -/
def df_mapa (df : List Row) (municipios meses : List String) : List Row :=
  (df_filtrado df municipios).filter (fun r => 0 < mapaTotalSelecionado meses r)

/-- The derived views one render pass of the script produces for a given
table and filter selection. -/
structure Views where
  filtrado : List Row
  rankingV : List Row
  totalMes : List (String × Int)
  pizza : List Row
  mapa : List Row
deriving DecidableEq

/-- One render pass of the script body (app.py lines 72-191): each field
is computed exactly by its source line, from the full `df` or from
`df_filtrado` as the line reads. -/
def renderViews (df : List Row) (municipios meses : List String) : Views where
  filtrado := df_filtrado df municipios
  rankingV := ranking df
  totalMes := df_total_mes df meses
  pizza := df_pizza df municipios meses
  mapa := df_mapa df municipios meses

/-- How a run of the script for one selected dataset ends. -/
inductive RenderOutcome where
  | crashed (e : PyError)
  | warnedEmpty
  | rendered (v : Views)

/-- The script from loading to rendering (app.py lines 39-191): if the
loader raised, the run crashes; if the loaded table is empty the guard
at lines 49-51 shows a warning and `st.stop()`s before any view is
computed; otherwise all views are rendered. -/
def runApp (res : Except PyError (List RawRow)) (municipios meses : List String) :
    RenderOutcome :=
  match carregar_dados res with
  | .error e => .crashed e
  | .ok df => if df.isEmpty then .warnedEmpty else .rendered (renderViews df municipios meses)

/-- A polygon ring: a closed sequence of (lon, lat) pairs. -/
abbrev Ring := List (Int × Int)

/-- A GeoJSON geometry as `adicionar_contorno_uf` receives it: either a
Polygon (a list of rings: outer ring then holes) or a MultiPolygon (a
list of polygons). -/
inductive Geometry where
  | polygon (coordinates : List Ring)
  | multiPolygon (coordinates : List (List Ring))

/-- app.py line 168:
`multipoligonos = coords if geom["type"] == "MultiPolygon" else [coords]`
— a single Polygon is wrapped as a one-element collection. -/
def multipoligonos : Geometry → List (List Ring)
  | .multiPolygon cs => cs
  | .polygon cs => [cs]

/-- The rings drawn by the loop of app.py lines 170-179: one
`Scattergeo` line trace per ring (`anel`) of every polygon, flattened. -/
def contornoRings (g : Geometry) : List Ring :=
  (multipoligonos g).flatten

/-- Character table of the `unidecode` library restricted to the Latin-1
diacritics occurring in Brazilian municipality names; every other
character passes through unchanged.  Each accented letter maps to its
plain ASCII letter of the same case. -/
def accentMap : List (Char × Char) :=
  [('á', 'a'), ('à', 'a'), ('â', 'a'), ('ã', 'a'), ('ä', 'a'),
   ('é', 'e'), ('è', 'e'), ('ê', 'e'), ('ë', 'e'),
   ('í', 'i'), ('ì', 'i'), ('î', 'i'), ('ï', 'i'),
   ('ó', 'o'), ('ò', 'o'), ('ô', 'o'), ('õ', 'o'), ('ö', 'o'),
   ('ú', 'u'), ('ù', 'u'), ('û', 'u'), ('ü', 'u'), ('ç', 'c'), ('ñ', 'n'),
   ('Á', 'A'), ('À', 'A'), ('Â', 'A'), ('Ã', 'A'), ('Ä', 'A'),
   ('É', 'E'), ('È', 'E'), ('Ê', 'E'), ('Ë', 'E'),
   ('Í', 'I'), ('Ì', 'I'), ('Î', 'I'), ('Ï', 'I'),
   ('Ó', 'O'), ('Ò', 'O'), ('Ô', 'O'), ('Õ', 'O'), ('Ö', 'O'),
   ('Ú', 'U'), ('Ù', 'U'), ('Û', 'U'), ('Ü', 'U'), ('Ç', 'C'), ('Ñ', 'N')]

/-- Diacritic stripping of one character (the `unidecode` call of app.py
lines 155 and 188, on the alphabet of the data). -/
def unidecodeChar (c : Char) : Char :=
  match accentMap.find? (fun p => p.1 == c) with
  | some p => p.2
  | none => c

/-- String-level `unidecode`. -/
def unidecodeStr (s : String) : String :=
  String.mk (s.data.map unidecodeChar)

/-- Python `str.upper()`; on the ASCII output of `unidecode` it agrees
with per-character ASCII upper-casing. -/
def upperStr (s : String) : String :=
  String.mk (s.data.map Char.toUpper)

/-- The join key attached to the table side (app.py line 188):
`unidecode(str(s)).upper()`. -/
def municipio_ascii (s : String) : String :=
  upperStr (unidecodeStr s)

/-- The join key attached to the geometry side (app.py line 155):
`unidecode(f["properties"]["name"]).upper()`. -/
def name_ascii (s : String) : String :=
  upperStr (unidecodeStr s)

/-! ### Facts about ASCII upper-casing and the diacritic table -/

/-- Unfolding of `Char.toUpper`. -/
theorem toUpper_def (c : Char) :
    Char.toUpper c =
      if c.toNat ≥ 97 ∧ c.toNat ≤ 122 then Char.ofNat (c.toNat - 32) else c :=
  rfl

/-- Round-trip of `Char.ofNat` on the ASCII range. -/
theorem char_toNat_ofNat_lt_128 : ∀ n : Nat, n < 128 → (Char.ofNat n).toNat = n := by
  decide

/-- Upper-casing keeps ASCII characters in the ASCII range. -/
theorem toUpper_toNat_lt_128 (c : Char) (h : c.toNat < 128) :
    (Char.toUpper c).toNat < 128 := by
  rw [toUpper_def]
  by_cases hc : c.toNat ≥ 97 ∧ c.toNat ≤ 122
  · rw [if_pos hc, char_toNat_ofNat_lt_128 _ (by omega)]
    omega
  · rw [if_neg hc]
    exact h

/-- Upper-casing fixes every non-ASCII character. -/
theorem toUpper_eq_of_128_le (c : Char) (h : 128 ≤ c.toNat) : Char.toUpper c = c := by
  rw [toUpper_def, if_neg]
  omega

/-- Upper-casing is idempotent. -/
theorem toUpper_idem (c : Char) : Char.toUpper (Char.toUpper c) = Char.toUpper c := by
  rw [toUpper_def c]
  by_cases hc : c.toNat ≥ 97 ∧ c.toNat ≤ 122
  · rw [if_pos hc, toUpper_def, if_neg]
    have h65 := char_toNat_ofNat_lt_128 (c.toNat - 32) (by omega)
    omega
  · rw [if_neg hc, toUpper_def, if_neg hc]

/-- Every accented character of the table is outside ASCII. -/
theorem accentMap_keys_ge_128 : ∀ p ∈ accentMap, 128 ≤ p.1.toNat := by
  decide

/-- Every replacement character of the table is plain ASCII. -/
theorem accentMap_vals_lt_128 : ∀ p ∈ accentMap, p.2.toNat < 128 := by
  decide

/-- Diacritic stripping fixes ASCII characters. -/
theorem unidecodeChar_of_lt_128 (c : Char) (h : c.toNat < 128) : unidecodeChar c = c := by
  unfold unidecodeChar
  cases hf : accentMap.find? (fun p => p.1 == c) with
  | none => rfl
  | some p =>
    have hmem := List.mem_of_find?_eq_some hf
    have hpred : p.1 = c := by simpa using List.find?_some hf
    have h128 := accentMap_keys_ge_128 p hmem
    rw [hpred] at h128
    omega

/-- Diacritic stripping either lands in ASCII or fixes its argument. -/
theorem unidecodeChar_lt_128_or_eq (c : Char) :
    (unidecodeChar c).toNat < 128 ∨ unidecodeChar c = c := by
  unfold unidecodeChar
  cases hf : accentMap.find? (fun p => p.1 == c) with
  | none => right; rfl
  | some p => left; exact accentMap_vals_lt_128 p (List.mem_of_find?_eq_some hf)

/-- The per-character normalization (strip diacritics, then upper-case)
is idempotent. -/
theorem normChar_idem (c : Char) :
    Char.toUpper (unidecodeChar (Char.toUpper (unidecodeChar c))) =
      Char.toUpper (unidecodeChar c) := by
  rcases unidecodeChar_lt_128_or_eq c with h | h
  · have h1 : (Char.toUpper (unidecodeChar c)).toNat < 128 := toUpper_toNat_lt_128 _ h
    rw [unidecodeChar_of_lt_128 _ h1, toUpper_idem]
  · rw [h]
    by_cases hc : c.toNat < 128
    · have h1 : (Char.toUpper c).toNat < 128 := toUpper_toNat_lt_128 _ hc
      rw [unidecodeChar_of_lt_128 _ h1, toUpper_idem]
    · have h2 : Char.toUpper c = c := toUpper_eq_of_128_le c (by omega)
      rw [h2, h, h2]

/-- List-level idempotence of strip-then-upper-case. -/
theorem normChar_list_idem (l : List Char) :
    (((l.map unidecodeChar).map Char.toUpper).map unidecodeChar).map Char.toUpper =
      (l.map unidecodeChar).map Char.toUpper := by
  induction l with
  | nil => rfl
  | cons c t ih =>
    simp only [List.map_cons]
    rw [normChar_idem c, ih]

/-! ### Concrete sample data (spec §8, Scenario 1) used in witnesses -/

/-- Scenario 1 row A: Jan=10, Fev=5, Total=15. -/
def rowA : Row := { municipio := "A", cells := [("Jan", 10), ("Fev", 5)], total := 15 }

/-- Scenario 1 row B: Jan=0, Fev=0, Total=0. -/
def rowB : Row := { municipio := "B", cells := [("Jan", 0), ("Fev", 0)], total := 0 }

/-- Scenario 1 table. -/
def tableAB : List Row := [rowA, rowB]

/-- Outer ring of the first polygon of the Scenario 4 geometry. -/
def anel1 : Ring := [(0, 0), (4, 0), (4, 4), (0, 4), (0, 0)]

/-- Hole of the first polygon of the Scenario 4 geometry. -/
def anel2 : Ring := [(1, 1), (2, 1), (2, 2), (1, 2), (1, 1)]

/-- Outer ring of the second polygon of the Scenario 4 geometry. -/
def anel3 : Ring := [(6, 0), (9, 0), (9, 3), (6, 3), (6, 0)]

/-- Hole of the second polygon of the Scenario 4 geometry. -/
def anel4 : Ring := [(7, 1), (8, 1), (8, 2), (7, 2), (7, 1)]

/-- A CSV line whose municipality field holds the literal text "NA":
present and non-empty, yet parsed as `NaN` by `pd.read_csv`'s default
NA handling. -/
def rawNA : RawRow := { municipio := some "NA", cells := [("Jan", 3)], total := 3 }

/-! ### Helper lemmas -/

/-- The guarded row total of line 73 and the unguarded one of line 187
agree: the sum over an empty column list is 0. -/
theorem mapaTotal_eq_totalSel (meses : List String) (r : Row) :
    mapaTotalSelecionado meses r = totalSelecionado meses r := by
  cases meses with
  | nil => simp [mapaTotalSelecionado, totalSelecionado]
  | cons m t => simp [mapaTotalSelecionado, totalSelecionado]

/-! ### Claims -/

/-- C10: the map pipeline's independently recomputed per-row total
(app.py line 187) agrees with the Filter Engine's `TotalSelecionado`
(line 73) for every row and every month selection, including the empty
selection, where both are 0. -/
theorem C10_mapa_total_refines_filtro (meses : List String) (r : Row) :
    mapaTotalSelecionado meses r = totalSelecionado meses r ∧
    mapaTotalSelecionado [] r = 0 :=
  ⟨mapaTotal_eq_totalSel meses r, rfl⟩

/-- C9: the Share (pie) view and the choropleth map dataset contain
exactly the rows of the FilteredView whose `SelectedTotal` is positive;
rows with `SelectedTotal ≤ 0` are excluded from both and no row outside
the FilteredView appears. -/
theorem C9_pizza_mapa_exactly_positive_rows (df : List Row)
    (municipios meses : List String) (r : Row) :
    (r ∈ (renderViews df municipios meses).pizza ↔
      r ∈ (renderViews df municipios meses).filtrado ∧ 0 < totalSelecionado meses r) ∧
    (r ∈ (renderViews df municipios meses).mapa ↔
      r ∈ (renderViews df municipios meses).filtrado ∧ 0 < totalSelecionado meses r) := by
  constructor
  · simp [renderViews, df_pizza, List.mem_filter]
  · simp [renderViews, df_mapa, List.mem_filter, mapaTotal_eq_totalSel]

/-- C5: for every row of the FilteredView and every ordered month
selection, `SelectedTotal` is the sum of that row's values over the
selected month columns, and it is exactly 0 when no month is selected. -/
theorem C5_totalSelecionado_sum (df : List Row) (municipios meses : List String)
    (r : Row) (h : r ∈ (renderViews df municipios meses).filtrado) :
    totalSelecionado meses r = (meses.map (fun m => r.val m)).sum ∧
    totalSelecionado [] r = 0 := by
  refine ⟨?_, rfl⟩
  cases meses with
  | nil => simp [totalSelecionado]
  | cons m t => simp [totalSelecionado]

/-- Witness for C5 on the Scenario 1 table. -/
theorem C5_totalSelecionado_sum_witness :
    totalSelecionado ["Jan", "Fev"] rowA = (["Jan", "Fev"].map (fun m => rowA.val m)).sum ∧
    totalSelecionado [] rowA = 0 :=
  C5_totalSelecionado_sum tableAB ["A", "B"] ["Jan", "Fev"] rowA (by decide)

/-- C7: the statewide monthly totals are indexed by the selected months
in their given order, and the value for each selected month is the sum
of that month's column over all rows of the full, unfiltered table. -/
theorem C7_total_mes_columnwise_sum (df : List Row) (municipios meses : List String) :
    (renderViews df municipios meses).totalMes = df_total_mes df meses ∧
    (df_total_mes df meses).map Prod.fst = meses ∧
    ∀ p ∈ df_total_mes df meses, p.2 = (df.map (fun r => r.val p.1)).sum := by
  refine ⟨rfl, ?_, ?_⟩
  · induction meses with
    | nil => rfl
    | cons m t ih => simpa [df_total_mes] using ih
  · intro p hp
    simp only [df_total_mes, List.mem_map] at hp
    obtain ⟨m, hm, rfl⟩ := hp
    rfl

/-- Witness for C7 on the Scenario 1 table. -/
theorem C7_total_mes_columnwise_sum_witness :
    (("Jan", (10 : Int))).2 = (tableAB.map (fun r => r.val ("Jan", (10 : Int)).1)).sum :=
  (C7_total_mes_columnwise_sum tableAB [] ["Jan"]).2.2 ("Jan", 10) (by decide)

/-- C2: two selections agreeing on the table and the months but with
arbitrary (possibly empty) municipality sets produce identical Ranking
and Monthly-statewide-totals views, and the empty municipality set makes
the FilteredView itself empty. -/
theorem C2_ranking_total_mes_municipio_independent (df : List Row)
    (meses muns1 muns2 : List String) :
    (renderViews df muns1 meses).rankingV = (renderViews df muns2 meses).rankingV ∧
    (renderViews df muns1 meses).totalMes = (renderViews df muns2 meses).totalMes ∧
    (renderViews df [] meses).filtrado = [] := by
  refine ⟨rfl, rfl, ?_⟩
  simp [renderViews, df_filtrado]

/-- C3 counterexample: the `except` clause of `carregar_dados` catches
only `FileNotFoundError`; any other read failure (here a parser error,
i.e. an unreadable resource) propagates as an unhandled exception, and
even the handled case returns an empty-table sentinel, not a typed
error value. -/
theorem C3_loader_counterexample :
    carregar_dados (Except.error PyError.parserError) = Except.error PyError.parserError ∧
    carregar_dados (Except.error PyError.fileNotFound) = Except.ok [] :=
  ⟨rfl, rfl⟩

/-- C3 as amended: for a missing file the loader catches the exception
and returns an empty table (a sentinel, not a typed error); the caller's
empty-table guard then shows a warning and stops rendering for that
dataset only, and each dataset is loaded independently of the others. -/
theorem C3_loader_missing_file_sentinel (municipios meses : List String)
    (f g : String → Except PyError (List RawRow)) (a : String) (h : f a = g a) :
    carregar_dados (Except.error PyError.fileNotFound) = Except.ok [] ∧
    runApp (Except.error PyError.fileNotFound) municipios meses = RenderOutcome.warnedEmpty ∧
    dados f a = dados g a := by
  refine ⟨rfl, rfl, ?_⟩
  simp [dados, h]

/-- Witness for the amended C3. -/
theorem C3_loader_missing_file_sentinel_witness :
    carregar_dados (Except.error PyError.fileNotFound) = Except.ok [] ∧
    runApp (Except.error PyError.fileNotFound) [] [] = RenderOutcome.warnedEmpty ∧
    dados (fun _ => Except.ok []) "MaconhaV2.csv" = dados (fun _ => Except.ok []) "MaconhaV2.csv" :=
  C3_loader_missing_file_sentinel [] [] (fun _ => Except.ok [])
    (fun _ => Except.ok []) "MaconhaV2.csv" rfl

/-- C4 counterexample: a source row whose municipality key is the
present, non-empty text "NA" is nevertheless dropped by the loader
(`pd.read_csv` parses "NA" as `NaN` by default, and
`dropna(subset=["Municipio"])` then removes the row), so the loaded
table does not contain exactly the rows with a present, non-empty key. -/
theorem C4_na_sentinel_counterexample :
    carregar_dados (Except.ok [rawNA]) = Except.ok [] ∧
    rawNA.municipio = some "NA" ∧
    "NA" ≠ "" ∧
    carregar_dados (Except.ok [rawNA]) ≠
      Except.ok (([rawNA].filter (fun cr => decide (cr.municipio.getD "" ≠ ""))).map
        (fun cr => { municipio := cr.municipio.getD "", cells := cr.cells,
                     total := cr.total })) := by
  refine ⟨rfl, rfl, by decide, ?_⟩
  have h1 : carregar_dados (Except.ok [rawNA]) = Except.ok [] := rfl
  rw [h1]
  intro h
  injection h with h2
  exact absurd h2 (by decide)

/-- C4 as amended: the loader silently drops every row whose
municipality field is absent or parses as `NaN` under `pd.read_csv`'s
default NA handling — the empty string or one of the default NA
sentinel strings ("NA", "N/A", "NaN", "NULL", "None", "n/a", ...); the
loaded table contains exactly the source rows whose municipality key is
present and not such an NA token. -/
theorem C4_dropna_keeps_exactly_non_na_rows (raw : List RawRow) :
    carregar_dados (Except.ok raw) =
      Except.ok ((raw.filter (fun cr =>
          match cr.municipio with
          | none => false
          | some s => !(default_na_values.contains s))).map
        (fun cr => { municipio := cr.municipio.getD "", cells := cr.cells,
                     total := cr.total })) := by
  simp only [carregar_dados, Except.ok.injEq]
  induction raw with
  | nil => rfl
  | cons cr t ih =>
    cases h : cr.municipio with
    | none => simpa [carregar_rows, read_csv_municipio, h] using ih
    | some s =>
      by_cases hs : s ∈ default_na_values <;>
        simpa [carregar_rows, read_csv_municipio, h, hs] using ih

/-- C6: outline-ring extraction wraps a single Polygon as a one-element
collection of polygons, flattens a MultiPolygon's polygons into their
rings, and on a MultiPolygon of two polygons with one outer and one
inner ring each yields exactly 4 rings. -/
theorem C6_contorno_rings (rings : List Ring) (polys : List (List Ring)) :
    multipoligonos (Geometry.polygon rings) = [rings] ∧
    contornoRings (Geometry.polygon rings) = rings ∧
    contornoRings (Geometry.multiPolygon polys) = polys.flatten ∧
    contornoRings (Geometry.multiPolygon [[anel1, anel2], [anel3, anel4]]) =
      [anel1, anel2, anel3, anel4] ∧
    (contornoRings (Geometry.multiPolygon [[anel1, anel2], [anel3, anel4]])).length = 4 := by
  refine ⟨rfl, ?_, rfl, ?_, ?_⟩ <;> simp [contornoRings, multipoligonos]

/-- C8: the name normalization used for the choropleth join — strip
diacritics with `unidecode`, then upper-case — is a pure function,
idempotent on every string, applied by the very same computation to the
table's municipality names (line 188) and to the geometry feature names
(line 155), and maps "Foz do Iguaçu" to "FOZ DO IGUACU" on both sides. -/
theorem C8_normalize_idempotent_join :
    (∀ x : String, municipio_ascii (municipio_ascii x) = municipio_ascii x) ∧
    municipio_ascii = name_ascii ∧
    municipio_ascii "Foz do Iguaçu" = "FOZ DO IGUACU" ∧
    name_ascii "Foz do Iguaçu" = "FOZ DO IGUACU" := by
  refine ⟨fun x => congrArg String.mk (normChar_list_idem x.data), rfl, ?_, ?_⟩ <;> decide

end DrogasPR
